import Mathlib

/-!
# Verification of the `security_test` attribute macro (security-scanner)

Shallow embedding of `src/lib.rs`.  The procedural macro `security_test`
receives the raw attribute token text and the annotated function item; it
parses the attribute text by substring matching, and expands to the original
function followed by two `static` items: a metadata byte array declared
`[u8; 64]` (whose emitted literal in fact has 65 elements, see
`encodeRecord`) and a `&'static str` holding the function name, each tagged
with platform section names.

Modelling conventions:
* Attribute text and identifiers are `List Char` (ASCII identifiers, where
  the character count equals the UTF-8 byte count used by `str::len`).
* Rust's `str::contains` is `containsSub` (substring anywhere in the text).
* The 64-byte `[u8; 64]` static is a `List Nat` whose entries are byte
  values; `#fn_name_len as u8` is `% 256`.
* `to_uppercase` is modelled per character by `Char.toUpper`, which agrees
  with Rust on ASCII identifiers.
-/

namespace SecurityScanner

/-- Substring test: `containsSub pat s` iff `pat` occurs contiguously
anywhere in `s`.  Models Rust `s.contains(pat)` from `lib.rs` lines 88-100. -/
def containsSub (pat : List Char) : List Char → Bool
  | [] => pat.isEmpty
  | c :: rest => pat.isPrefixOf (c :: rest) || containsSub pat rest

/-- Keyword `sql_injection` (lib.rs line 88). -/
def kwSql : List Char := "sql_injection".data

/-- Keyword `race_condition` (lib.rs line 89). -/
def kwRace : List Char := "race_condition".data

/-- Keyword `timing_attack` (lib.rs line 90). -/
def kwTiming : List Char := "timing_attack".data

/-- Keyword `buffer_overflow` (lib.rs line 91). -/
def kwBuffer : List Char := "buffer_overflow".data

/-- Threat keyword `critical` (lib.rs line 93). -/
def kwCritical : List Char := "critical".data

/-- Threat keyword `high` (lib.rs line 95). -/
def kwHigh : List Char := "high".data

/-- Threat keyword `medium` (lib.rs line 97). -/
def kwMedium : List Char := "medium".data

/-- Threat keyword `low`: never tested by the code, it names the default
branch (lib.rs line 100). -/
def kwLow : List Char := "low".data

/-- The parsed attribute configuration: the four test flags as the `u8`
values `0`/`1` the macro splices into the static array, and the threat
level ordinal (lib.rs lines 88-101). -/
structure ParsedAttr where
  sql_injection : Nat
  race_condition : Nat
  timing_attack : Nat
  buffer_overflow : Nat
  threat_level : Nat
  deriving Repr, DecidableEq

/-- Configuration parsing (lib.rs lines 88-101): each flag is `1` iff its
keyword occurs as a substring of the attribute text; the threat level is the
first match of `critical` (3), `high` (2), `medium` (1), defaulting to `0`
(low). -/
def parseAttr (attr : List Char) : ParsedAttr where
  sql_injection := if containsSub kwSql attr then 1 else 0
  race_condition := if containsSub kwRace attr then 1 else 0
  timing_attack := if containsSub kwTiming attr then 1 else 0
  buffer_overflow := if containsSub kwBuffer attr then 1 else 0
  threat_level :=
    if containsSub kwCritical attr then 3
    else if containsSub kwHigh attr then 2
    else if containsSub kwMedium attr then 1
    else 0

/-- The eight magic bytes emitted at the head of the record
(lib.rs line 127): `0xDEADBEEFCAFEBABE` as a little-endian byte sequence. -/
def magicBytes : List Nat := [0xBE, 0xBA, 0xFE, 0xCA, 0xEF, 0xBE, 0xAD, 0xDE]

/-- The element count declared by the static's type `[u8; 64]`
(lib.rs line 125). -/
def declaredRecordSize : Nat := 64

/-- Encoding of a parsed configuration plus function name into the array
literal assigned to the metadata static (lib.rs lines 125-137): magic, name
length narrowed to a byte (`#fn_name_len as u8`), the four flags, the
threat level, then the padding zeros written out on lines 135-136 - 32 on
the first line and 19 on the second, 51 in total, so the literal has 65
elements against the declared `[u8; 64]` type. -/
def encodeRecord (fnName : List Char) (p : ParsedAttr) : List Nat :=
  magicBytes ++
  [fnName.length % 256] ++
  [p.sql_injection, p.race_condition, p.timing_attack, p.buffer_overflow] ++
  [p.threat_level] ++
  List.replicate 51 0

/-- The metadata record the macro emits for a function name and attribute
text (lib.rs lines 88-137). -/
def securityTestRecord (fnName attr : List Char) : List Nat :=
  encodeRecord fnName (parseAttr attr)

/-- Scanner-side decoding of bytes 9-13 of a record per the spec table:
bytes 9-12 are the four flags, byte 13 the threat level; the name length is
not part of the configuration. -/
def decodeConfig (r : List Nat) : ParsedAttr where
  sql_injection := r.getD 9 0
  race_condition := r.getD 10 0
  timing_attack := r.getD 11 0
  buffer_overflow := r.getD 12 0
  threat_level := r.getD 13 0

/-- Prefix of the metadata symbol, `__SEC_TEST_` (lib.rs line 105). -/
def secTestPrefixChars : List Char := "__SEC_TEST_".data

/-- Prefix of the name symbol, `__SEC_NAME_` (lib.rs line 110). -/
def secNamePrefixChars : List Char := "__SEC_NAME_".data

/-- Derived identifier of the metadata static (lib.rs lines 104-107):
`__SEC_TEST_` followed by the upper-cased function name. -/
def metadata_var_name (fnName : List Char) : List Char :=
  secTestPrefixChars ++ fnName.map Char.toUpper

/-- Derived identifier of the name static (lib.rs lines 109-112):
`__SEC_NAME_` followed by the upper-cased function name. -/
def name_var_name (fnName : List Char) : List Char :=
  secNamePrefixChars ++ fnName.map Char.toUpper

/-- The platform-selected section names attached to a generated static
(lib.rs lines 121-123 and 140-142). -/
structure SectionSpec where
  linux : List Char
  macos : List Char
  windows : List Char
  deriving Repr, DecidableEq

/-- Sections holding the 64-byte records (lib.rs lines 121-123). -/
def recordSections : SectionSpec where
  linux := ".security_tests".data
  macos := "__DATA,__sectests".data
  windows := ".sectests".data

/-- Sections holding the name blobs (lib.rs lines 140-142). -/
def nameSections : SectionSpec where
  linux := ".security_names".data
  macos := "__DATA,__secnames".data
  windows := ".secnames".data

/-- The annotated function item as the macro sees it: its identifier
(`input_fn.sig.ident`) and the remainder of its declaration (signature,
body, calling convention), which the macro never inspects. -/
structure ItemFn where
  ident : List Char
  rest : List Char
  deriving Repr, DecidableEq

/-- One item of the macro expansion: the original function, a byte-array
static (with its `link_section` placement), or a `&'static str` static.
For the latter, `link_section` applies to the static itself, i.e. to the
two-word pointer-plus-length representation of the reference; `referent`
records the character content of the promoted string constant the
reference points to, which is stored outside the section. -/
inductive Item where
  | fn (f : ItemFn)
  | staticBytes (name : List Char) (sec : SectionSpec) (value : List Nat)
  | staticStrRef (name : List Char) (sec : SectionSpec) (referent : List Char)
  deriving Repr, DecidableEq

/-- What a static contributes to its assigned section: either the literal
bytes of its value, or - for a `&'static str` static - a fixed-size fat
pointer (address and length) whose referent bytes live outside the
section. -/
inductive SectionDatum where
  | bytes (b : List Nat)
  | fatPointer (referent : List Char)
  deriving Repr, DecidableEq

/-- The section content contributed by one expansion item: the original
function contributes nothing to the metadata sections; a byte-array static
contributes its bytes; a `&'static str` static contributes the fat pointer
to its referent, not the referent's bytes. -/
def sectionDatum : Item → Option SectionDatum
  | .fn _ => none
  | .staticBytes _ _ v => some (.bytes v)
  | .staticStrRef _ _ r => some (.fatPointer r)

/-- The full macro expansion (lib.rs lines 79-148): the original function
unchanged, then the metadata static and the name static, both `#[used]` and
section-placed. -/
def security_test (attr : List Char) (input_fn : ItemFn) : List Item :=
  [Item.fn input_fn,
   Item.staticBytes (metadata_var_name input_fn.ident) recordSections
     (securityTestRecord input_fn.ident attr),
   Item.staticStrRef (name_var_name input_fn.ident) nameSections input_fn.ident]

/-- Ordinal value a threat keyword stands for (spec table in section 6). -/
def kwOrdinal (k : List Char) : Nat :=
  if k = kwCritical then 3
  else if k = kwHigh then 2
  else if k = kwMedium then 1
  else 0

/-- Priority tier of a threat keyword under the fixed resolution order
`critical` > `high` > `low`/`medium` (the last two share a tier). -/
def kwTier (k : List Char) : Nat :=
  if k = kwCritical then 2
  else if k = kwHigh then 1
  else 0

/-- The four recognized threat-level keywords. -/
def threatKws : List (List Char) := [kwCritical, kwHigh, kwMedium, kwLow]

end SecurityScanner

namespace SecurityScanner

/-- Every keyword's priority tier is at most that of `critical`. -/
theorem kwTier_le_two (k : List Char) : kwTier k ≤ 2 := by
  unfold kwTier
  split
  · omega
  · split <;> omega

/-- C1 counterexample: the claim asserts that the empty attribute text
yields threat_level = medium with record byte 13 equal to 1, and that any
text free of threat-level keywords has all flags false; the code instead
defaults to low (byte 13 = 0), and a threat-keyword-free text such as
`sql_injection` still sets a flag. -/
theorem emptyAttr_threat_byte_counterexample :
    (securityTestRecord "login".data [])[13]? = some 0 ∧
    (securityTestRecord "login".data [])[13]? ≠ some 1 ∧
    (parseAttr []).threat_level = 0 ∧
    (parseAttr kwSql).sql_injection = 1 := by
  decide

/-- C1 (amended): for the empty attribute text, and for any attribute text
containing none of the recognized keywords as a substring, the parsed
configuration has all four flags false (0) and threat_level = low (0), so
the record bytes at offsets 9-13 are all 0. -/
theorem no_keywords_all_defaults (attr fnName : List Char)
    (h1 : containsSub kwSql attr = false)
    (h2 : containsSub kwRace attr = false)
    (h3 : containsSub kwTiming attr = false)
    (h4 : containsSub kwBuffer attr = false)
    (h5 : containsSub kwCritical attr = false)
    (h6 : containsSub kwHigh attr = false)
    (h7 : containsSub kwMedium attr = false) :
    parseAttr attr = ⟨0, 0, 0, 0, 0⟩ ∧
    ((securityTestRecord fnName attr).drop 9).take 5 = [0, 0, 0, 0, 0] := by
  have hp : parseAttr attr = ⟨0, 0, 0, 0, 0⟩ := by
    simp [parseAttr, h1, h2, h3, h4, h5, h6, h7]
  refine ⟨hp, ?_⟩
  simp [securityTestRecord, hp, encodeRecord, magicBytes]

/-- C1 amended witness at the concrete keyword-free text `foo bar`. -/
theorem no_keywords_all_defaults_witness :
    parseAttr "foo bar".data = ⟨0, 0, 0, 0, 0⟩ ∧
    ((securityTestRecord "login".data "foo bar".data).drop 9).take 5 =
      [0, 0, 0, 0, 0] :=
  no_keywords_all_defaults "foo bar".data "login".data (by decide) (by decide)
    (by decide) (by decide) (by decide) (by decide) (by decide)

/-- C2: whenever the attribute text contains at least one threat-level
keyword, the resolved threat_level is the ordinal of a keyword present in
the text whose priority tier (critical > high > low/medium) is maximal
among all threat-level keywords present. -/
theorem threat_level_priority_order (s : List Char)
    (h : ∃ k, k ∈ threatKws ∧ containsSub k s = true) :
    ∃ k, k ∈ threatKws ∧ containsSub k s = true ∧
      (∀ k', k' ∈ threatKws → containsSub k' s = true → kwTier k' ≤ kwTier k) ∧
      (parseAttr s).threat_level = kwOrdinal k := by
  by_cases hc : containsSub kwCritical s = true
  · refine ⟨kwCritical, by simp [threatKws], hc, ?_, ?_⟩
    · intro k' _ _
      have h2 : kwTier kwCritical = 2 := by decide
      rw [h2]
      exact kwTier_le_two k'
    · simp [parseAttr, hc, kwOrdinal]
  · by_cases hh : containsSub kwHigh s = true
    · refine ⟨kwHigh, by simp [threatKws], hh, ?_, ?_⟩
      · intro k' hk' hck'
        simp only [threatKws, List.mem_cons, List.not_mem_nil, or_false] at hk'
        rcases hk' with rfl | rfl | rfl | rfl
        · exact absurd hck' hc
        · exact le_refl _
        · decide
        · decide
      · have : kwOrdinal kwHigh = 2 := by decide
        rw [this]
        simp [parseAttr, hc, hh]
    · by_cases hm : containsSub kwMedium s = true
      · refine ⟨kwMedium, by simp [threatKws], hm, ?_, ?_⟩
        · intro k' hk' hck'
          simp only [threatKws, List.mem_cons, List.not_mem_nil, or_false] at hk'
          rcases hk' with rfl | rfl | rfl | rfl
          · exact absurd hck' hc
          · exact absurd hck' hh
          · exact le_refl _
          · decide
        · have : kwOrdinal kwMedium = 1 := by decide
          rw [this]
          simp [parseAttr, hc, hh, hm]
      · obtain ⟨k, hk, hcon⟩ := h
        simp only [threatKws, List.mem_cons, List.not_mem_nil, or_false] at hk
        rcases hk with rfl | rfl | rfl | rfl
        · exact absurd hcon hc
        · exact absurd hcon hh
        · exact absurd hcon hm
        · refine ⟨kwLow, by simp [threatKws], hcon, ?_, ?_⟩
          · intro k' hk' hck'
            simp only [threatKws, List.mem_cons, List.not_mem_nil, or_false] at hk'
            rcases hk' with rfl | rfl | rfl | rfl
            · exact absurd hck' hc
            · exact absurd hck' hh
            · decide
            · exact le_refl _
          · have : kwOrdinal kwLow = 0 := by decide
            rw [this]
            simp [parseAttr, hc, hh, hm]

/-- C2 witness at the concrete text `medium high`, where the
higher-priority keyword `high` wins over `medium`. -/
theorem threat_level_priority_order_witness :
    ∃ k, k ∈ threatKws ∧ containsSub k "medium high".data = true ∧
      (∀ k', k' ∈ threatKws → containsSub k' "medium high".data = true →
        kwTier k' ≤ kwTier k) ∧
      (parseAttr "medium high".data).threat_level = kwOrdinal k :=
  threat_level_priority_order "medium high".data ⟨kwHigh, by decide, by decide⟩

/-- C3: each of the four test flags of the parsed configuration is set iff
its keyword occurs as a substring of the attribute text, independently of
the others; parsing is total, so a text containing exactly the keywords of
a subset K yields flags true exactly on K. -/
theorem flags_match_keyword_presence (s : List Char) (b1 b2 b3 b4 : Bool)
    (h1 : containsSub kwSql s = b1) (h2 : containsSub kwRace s = b2)
    (h3 : containsSub kwTiming s = b3) (h4 : containsSub kwBuffer s = b4) :
    (parseAttr s).sql_injection = (if b1 then 1 else 0) ∧
    (parseAttr s).race_condition = (if b2 then 1 else 0) ∧
    (parseAttr s).timing_attack = (if b3 then 1 else 0) ∧
    (parseAttr s).buffer_overflow = (if b4 then 1 else 0) := by
  subst h1 h2 h3 h4
  exact ⟨rfl, rfl, rfl, rfl⟩

/-- C3 witness at the text `sql_injection and timing_attack`, realizing the
subset K = set of sql_injection and timing_attack with noise words. -/
theorem flags_match_keyword_presence_witness :
    (parseAttr "sql_injection and timing_attack".data).sql_injection =
      (if true then 1 else 0) ∧
    (parseAttr "sql_injection and timing_attack".data).race_condition =
      (if false then 1 else 0) ∧
    (parseAttr "sql_injection and timing_attack".data).timing_attack =
      (if true then 1 else 0) ∧
    (parseAttr "sql_injection and timing_attack".data).buffer_overflow =
      (if false then 1 else 0) :=
  flags_match_keyword_presence "sql_injection and timing_attack".data
    true false true false (by decide) (by decide) (by decide) (by decide)

end SecurityScanner

namespace SecurityScanner

/-- Each parsed test flag is 0 or 1. -/
theorem parseAttr_flags_le_one (attr : List Char) :
    (parseAttr attr).sql_injection ≤ 1 ∧ (parseAttr attr).race_condition ≤ 1 ∧
    (parseAttr attr).timing_attack ≤ 1 ∧ (parseAttr attr).buffer_overflow ≤ 1 := by
  unfold parseAttr
  refine ⟨?_, ?_, ?_, ?_⟩ <;> dsimp only <;> split <;> omega

/-- The parsed threat level is one of the four ordinals 0..3. -/
theorem parseAttr_threat_le_three (attr : List Char) :
    (parseAttr attr).threat_level ≤ 3 := by
  unfold parseAttr
  dsimp only
  split
  · omega
  · split
    · omega
    · split <;> omega

/-- C4 (code bug): the array literal assigned to the metadata static for
the function `login` with empty attribute text has 65 elements - magic
through threat level as the claim lays them out, but 51 padding zeros
(lib.rs lines 135-136) - against the `[u8; 64]` type declared on line 125,
so no expansion yields the claimed 64-byte record with zeros at offsets
14-63; the prefix through byte 13 is as the claim states. -/
theorem record_literal_is_65_bytes :
    (securityTestRecord "login".data []).length = 65 ∧
    declaredRecordSize = 64 ∧
    (securityTestRecord "login".data []).length ≠ declaredRecordSize ∧
    (securityTestRecord "login".data []).take 8 =
      [0xBE, 0xBA, 0xFE, 0xCA, 0xEF, 0xBE, 0xAD, 0xDE] ∧
    (securityTestRecord "login".data [])[8]? = some 5 ∧
    (securityTestRecord "login".data []).drop 14 = List.replicate 51 0 := by
  decide

/-- C5 counterexample: in the expansion for the function `login`, the item
placed in the names section is a `&'static str` static, so the section
receives the fixed-size fat pointer to the identifier, not the
identifier's byte blob: its section datum differs from the byte blob of
`login` that the claim says a scanner can read directly from the
section. -/
theorem name_section_holds_pointer_counterexample :
    (security_test [] ⟨"login".data, []⟩)[2]? =
      some (Item.staticStrRef (name_var_name "login".data) nameSections
        "login".data) ∧
    sectionDatum (Item.staticStrRef (name_var_name "login".data) nameSections
        "login".data) =
      some (SectionDatum.fatPointer "login".data) ∧
    sectionDatum (Item.staticStrRef (name_var_name "login".data) nameSections
        "login".data) ≠
      some (SectionDatum.bytes ("login".data.map Char.toNat)) := by
  decide

/-- C5 (amended): the third item of the macro expansion is the name static,
a `&'static str` whose referent is the function's identifier itself,
unchanged, placed under the name sections with the derived name symbol; the
names section receives the fixed-size pointer-plus-length reference, and
the identifier's text is its referent, stored outside the section. -/
theorem name_record_refers_to_identifier (attr : List Char) (f : ItemFn) :
    (security_test attr f)[2]? =
      some (Item.staticStrRef (name_var_name f.ident) nameSections f.ident) ∧
    sectionDatum (Item.staticStrRef (name_var_name f.ident) nameSections
        f.ident) =
      some (SectionDatum.fatPointer f.ident) :=
  ⟨rfl, rfl⟩

/-- C6: byte 8 of the emitted record always stores the name length reduced
modulo 256 (the `as u8` narrowing), with no error path; in particular a
name of at most 255 bytes, hence one of exactly 255 bytes, is stored
exactly. -/
theorem name_length_byte_wraps (fnName attr : List Char) :
    (securityTestRecord fnName attr)[8]? = some (fnName.length % 256) ∧
    (fnName.length ≤ 255 →
      (securityTestRecord fnName attr)[8]? = some fnName.length) := by
  constructor
  · simp [securityTestRecord, encodeRecord, magicBytes]
  · intro h
    have hmod : fnName.length % 256 = fnName.length := Nat.mod_eq_of_lt (by omega)
    simp [securityTestRecord, encodeRecord, magicBytes, hmod]

/-- C6 witness: a 255-byte name stores 255 exactly; a 256-byte name wraps
to 0 and a 300-byte name to 44, silently. -/
theorem name_length_byte_wraps_witness :
    (securityTestRecord (List.replicate 255 'a') [])[8]? = some 255 ∧
    (securityTestRecord (List.replicate 256 'a') [])[8]? = some 0 ∧
    (securityTestRecord (List.replicate 300 'a') [])[8]? = some 44 := by
  refine ⟨?_, ?_, ?_⟩
  · have h := (name_length_byte_wraps (List.replicate 255 'a') []).2
      (by rw [List.length_replicate])
    rwa [List.length_replicate] at h
  · have h := (name_length_byte_wraps (List.replicate 256 'a') []).1
    have e : (256 : Nat) % 256 = 0 := rfl
    rwa [List.length_replicate, e] at h
  · have h := (name_length_byte_wraps (List.replicate 300 'a') []).1
    have e : (300 : Nat) % 256 = 44 := rfl
    rwa [List.length_replicate, e] at h

/-- C7: decoding bytes 9-13 of the encoded record recovers any valid
configuration (flags 0/1, threat level 0..3) exactly. -/
theorem decode_encode_roundtrip (fnName : List Char) (p : ParsedAttr)
    (h1 : p.sql_injection ≤ 1) (h2 : p.race_condition ≤ 1)
    (h3 : p.timing_attack ≤ 1) (h4 : p.buffer_overflow ≤ 1)
    (h5 : p.threat_level ≤ 3) :
    decodeConfig (encodeRecord fnName p) = p :=
  rfl

/-- C7 witness at the configuration (1,0,1,0) with threat level 3. -/
theorem decode_encode_roundtrip_witness :
    decodeConfig (encodeRecord "login".data ⟨1, 0, 1, 0, 3⟩) = ⟨1, 0, 1, 0, 3⟩ :=
  decode_encode_roundtrip "login".data ⟨1, 0, 1, 0, 3⟩ (by decide) (by decide)
    (by decide) (by decide) (by decide)

/-- C8: the two emitted static items are a pure function of the function's
identifier and the attribute text: two annotated functions with the same
identifier and attribute text receive byte-identical metadata records and
identical name records, whatever their bodies. -/
theorem emission_pure_in_ident_and_attr (attr : List Char) (f g : ItemFn)
    (h : f.ident = g.ident) :
    (security_test attr f).drop 1 = (security_test attr g).drop 1 := by
  simp [security_test, h]

/-- C8 witness: two functions named `login` with different bodies receive
identical static items. -/
theorem emission_pure_in_ident_and_attr_witness :
    (security_test "critical".data ⟨"login".data, "bodyA".data⟩).drop 1 =
      (security_test "critical".data ⟨"login".data, "bodyB".data⟩).drop 1 :=
  emission_pure_in_ident_and_attr "critical".data ⟨"login".data, "bodyA".data⟩
    ⟨"login".data, "bodyB".data⟩ rfl

/-- C9: the macro expansion is exactly the original function item,
unmodified, followed by the two generated statics with their section
placements: nothing else is added and the function itself is untouched. -/
theorem expansion_preserves_function (attr : List Char) (f : ItemFn) :
    security_test attr f =
      [Item.fn f,
       Item.staticBytes (metadata_var_name f.ident) recordSections
         (securityTestRecord f.ident attr),
       Item.staticStrRef (name_var_name f.ident) nameSections f.ident] :=
  rfl

/-- C10: the derived symbols are exactly `__SEC_TEST_` and `__SEC_NAME_`
followed by the upper-cased function name, so two function names equal
after upper-casing derive the same two symbols and collide. -/
theorem derived_symbols_uppercase_collision (f g : List Char)
    (h : f.map Char.toUpper = g.map Char.toUpper) :
    metadata_var_name f = secTestPrefixChars ++ f.map Char.toUpper ∧
    name_var_name f = secNamePrefixChars ++ f.map Char.toUpper ∧
    metadata_var_name f = metadata_var_name g ∧
    name_var_name f = name_var_name g := by
  refine ⟨rfl, rfl, ?_, ?_⟩ <;> simp [metadata_var_name, name_var_name, h]

/-- C10 witness: the distinct names `foo` and `FOo` derive identical
symbols. -/
theorem derived_symbols_uppercase_collision_witness :
    "foo".data ≠ "FOo".data ∧
    metadata_var_name "foo".data = metadata_var_name "FOo".data ∧
    name_var_name "foo".data = name_var_name "FOo".data :=
  ⟨by decide,
   (derived_symbols_uppercase_collision "foo".data "FOo".data (by decide)).2.2.1,
   (derived_symbols_uppercase_collision "foo".data "FOo".data (by decide)).2.2.2⟩

end SecurityScanner
